import Mathlib

/-!
Verification development for the `SPL_Meter` audio DSP pipeline
(`SPL_Meter.h` / `SPL_Meter.cpp`): a per-buffer chain of DC-offset removal,
Hann windowing, a real FFT, A-weighting / microphone-correction energy
accumulation, energy-to-dBA conversion, and exponential smoothing.

Modelling conventions:
* Raw ADC samples are natural numbers (`uint32_t` codes); the C++ `uint32_t`
  accumulator for the buffer sum is modelled with an explicit `% 2 ^ 32`.
* `float32_t` arithmetic is idealised as exact real arithmetic.
* The coefficient tables are C++ static arrays with partial initializer
  lists; missing trailing entries are value-initialized to zero, which is
  modelled with `List.getD _ 0`.
* The spectral transform `arm_rfft_fast_f32` is CMSIS-DSP library code, not
  part of this repository.  Following the design notes ("a black-box
  primitive ... abstracted behind a narrow interface
  `transform(context, input[N]) -> packed_output[N]`"), the pipeline is
  parameterised over an arbitrary packed transform `Transform`.
-/

namespace SPLMeter

/-- `NUM_SAMPLES` from `SPL_Meter.h`: buffer size for processing. -/
def NUM_SAMPLES : ℕ := 256

/-- `ADC_REF_VOLTAGE` from `SPL_Meter.h`. -/
def ADC_REF_VOLTAGE : ℝ := 3.3

/-- `ADC_RESOLUTION` from `SPL_Meter.h`: 12-bit ADC resolution. -/
def ADC_RESOLUTION : ℕ := 4096

/-- `SMOOTHING_FACTOR` from `SPL_Meter.h`: the EMA alpha. -/
def SMOOTHING_FACTOR : ℝ := 0.1

/-- `CALIBRATION_OFFSET_DB` from `SPL_Meter.h`. -/
def CALIBRATION_OFFSET_DB : ℝ := -30

/-- The 226 explicit initializers of the C++ array
`static const float32_t HANN_WINDOW_LUT[256]` in `SPL_Meter.cpp`, scaled by
`100000` (each source literal has five decimal places, so entry `i` of the
source table is exactly `hannInitializers.getD i 0 / 100000`).  The array has
length 256, so its remaining 30 entries are value-initialized to `0.0`. -/
def hannInitializers : List ℕ := [
    0, 15, 61, 137, 244, 381, 548, 745, 972, 1228,
    1513, 1827, 2169, 2539, 2937, 3362, 3813, 4290, 4793, 5320,
    5872, 6448, 7048, 7671, 8317, 8986, 9677, 10390, 11124, 11879,
    12655, 13451, 14266, 15099, 15951, 16821, 17709, 18613, 19534, 20471,
    21423, 22390, 23371, 24366, 25374, 26395, 27428, 28472, 29528, 30594,
    31670, 32756, 33850, 34954, 36066, 37186, 38313, 39447, 40588, 41734,
    42886, 44042, 45203, 46368, 47536, 48708, 49882, 51058, 52236, 53415,
    54595, 55775, 56956, 58136, 59315, 60493, 61670, 62844, 64017, 65187,
    66355, 67520, 68681, 69838, 70991, 72139, 73281, 74418, 75548, 76672,
    77789, 78898, 80000, 81093, 82177, 83251, 84315, 85368, 86410, 87440,
    88458, 89464, 90457, 91436, 92402, 93354, 94291, 95212, 96116, 97004,
    97874, 98726, 99560, 100000, 99560, 98726, 97874, 97004, 96116, 95212,
    94291, 93354, 92402, 91436, 90457, 89464, 88458, 87440, 86410, 85368,
    84315, 83251, 82177, 81093, 80000, 78898, 77789, 76672, 75548, 74418,
    73281, 72139, 70991, 69838, 68681, 67520, 66355, 65187, 64017, 62844,
    61670, 60493, 59315, 58136, 56956, 55775, 54595, 53415, 52236, 51058,
    49882, 48708, 47536, 46368, 45203, 44042, 42886, 41734, 40588, 39447,
    38313, 37186, 36066, 34954, 33850, 32756, 31670, 30594, 29528, 28472,
    27428, 26395, 25374, 24366, 23371, 22390, 21423, 20471, 19534, 18613,
    17709, 16821, 15951, 15099, 14266, 13451, 12655, 11879, 11124, 10390,
    9677, 8986, 8317, 7671, 7048, 6448, 5872, 5320, 4793, 4290,
    3813, 3362, 2937, 2539, 2169, 1827, 1513, 1228, 972, 745,
    548, 381, 244, 137, 61, 15]

/-- `HANN_WINDOW_LUT` from `SPL_Meter.cpp`: entry `i` of the length-256
window array, as an exact rational (zero for the trailing
zero-initialized entries). -/
def HANN_WINDOW_LUT (i : ℕ) : ℚ := (hannInitializers.getD i 0 : ℚ) / 100000

/-- The 118 explicit initializers of the C++ array
`static const float32_t A_WEIGHTING_LUT_SQUARED[128]` in `SPL_Meter.cpp`,
scaled by `10000` (each source literal has four decimal places); the
remaining 10 entries of the length-128 array are value-initialized to `0.0`. -/
def aWeightingInitializers : List ℕ := [
    1287, 2120, 3162, 4365, 5623, 6813, 7852, 8692, 9333, 9772,
    10000, 10000, 9853, 9661, 9333, 8913, 8414, 7852, 7244, 6607,
    5957, 5309, 4677, 4074, 3548, 3020, 2512, 2000, 1585, 1259,
    1000, 794, 631, 501, 400, 316, 251, 200, 158, 126,
    100, 79, 63, 50, 40, 32, 25, 20, 16, 13,
    10, 8, 6, 5, 4, 3, 3, 2, 2, 1,
    1, 1, 1, 1, 0, 0, 0, 0, 0, 0,
    0, 0, 0, 0, 0, 0, 0, 0, 0, 0,
    0, 0, 0, 0, 0, 0, 0, 0, 0, 0,
    0, 0, 0, 0, 0, 0, 0, 0, 0, 0,
    0, 0, 0, 0, 0, 0, 0, 0, 0, 0,
    0, 0, 0, 0, 0, 0, 0, 0]

/-- `A_WEIGHTING_LUT_SQUARED` from `SPL_Meter.cpp`, as an exact rational. -/
def A_WEIGHTING_LUT_SQUARED (i : ℕ) : ℚ :=
  (aWeightingInitializers.getD i 0 : ℚ) / 10000

/-- The 128 initializers of the C++ array
`static const float32_t MIC_CORRECTION_LUT_SQUARED[128]` in `SPL_Meter.cpp`,
scaled by `10000` (each source literal has four decimal places). -/
def micCorrectionInitializers : List ℕ := [
    11834, 11220, 10965, 10715, 10471, 10233, 10000, 9886, 9772, 9772,
    9772, 9886, 9886, 9886, 10000, 10000, 10000, 10000, 9886, 9886,
    9886, 9772, 9772, 9772, 9661, 9661, 9550, 9550, 9441, 9441,
    9333, 9333, 9226, 9226, 9120, 9120, 9016, 9016, 8913, 8913,
    8810, 8810, 8710, 8710, 8610, 8610, 8511, 8511, 8414, 8414,
    8318, 8318, 8222, 8222, 8128, 8128, 8035, 8035, 7943, 7943,
    7852, 7852, 7762, 7762, 7674, 7674, 7586, 7586, 7499, 7499,
    7413, 7413, 7328, 7328, 7244, 7244, 7161, 7161, 7079, 7079,
    6998, 6998, 6918, 6918, 6839, 6839, 6761, 6761, 6683, 6683,
    6607, 6607, 6531, 6531, 6457, 6457, 6383, 6383, 6310, 6310,
    6237, 6237, 6166, 6166, 6095, 6095, 6026, 6026, 5957, 5957,
    5888, 5888, 5821, 5821, 5754, 5754, 5688, 5688, 5623, 5623,
    5559, 5559, 5495, 5495, 5433, 5433, 5370, 5370]

/-- `MIC_CORRECTION_LUT_SQUARED` from `SPL_Meter.cpp`, as an exact rational. -/
def MIC_CORRECTION_LUT_SQUARED (i : ℕ) : ℚ :=
  (micCorrectionInitializers.getD i 0 : ℚ) / 10000

/-- An input buffer of `process`: 256 raw unsigned ADC codes. -/
abbrev Buffer := Fin 256 → ℕ

/-- The abstract spectral transform (`arm_rfft_fast_f32`, external library
code): maps the 256 windowed time-domain samples to the 256-entry packed
output array (alternating real/imaginary parts of the 128 complex bins). -/
abbrev Transform := (Fin 256 → ℝ) → (Fin 256 → ℝ)

/-- Step 1 of `SPL_Meter::process`: the `uint32_t sum` accumulator over the
buffer, which wraps modulo `2 ^ 32`. -/
def rawSum (b : Buffer) : ℕ := (∑ i, b i) % 2 ^ 32

/-- Step 1 of `SPL_Meter::process`: `dynamic_dc_offset = (float)sum / NUM_SAMPLES`. -/
noncomputable def dynamicDcOffset (b : Buffer) : ℝ := (rawSum b : ℝ) / NUM_SAMPLES

/-- Step 2 of `SPL_Meter::process`: the DC-removed (centered) sample,
`(float32_t)raw_buffer[i] - dynamic_dc_offset`. -/
noncomputable def centered (b : Buffer) (i : Fin 256) : ℝ :=
  (b i : ℝ) - dynamicDcOffset b

/-- Step 2 of `SPL_Meter::process`: the windowed FFT input,
`m_fft_input_buffer[i] = sample * HANN_WINDOW_LUT[i]`. -/
noncomputable def fftInput (b : Buffer) (i : Fin 256) : ℝ :=
  centered b i * (HANN_WINDOW_LUT i.val : ℝ)

/-- `real = m_fft_output_buffer[2 * i]` for bin `i`. -/
noncomputable def binReal (F : Transform) (b : Buffer) (i : Fin 128) : ℝ :=
  F (fftInput b) ⟨2 * i.val, by have h := i.isLt; omega⟩

/-- `imag = m_fft_output_buffer[2 * i + 1]` for bin `i`. -/
noncomputable def binImag (F : Transform) (b : Buffer) (i : Fin 128) : ℝ :=
  F (fftInput b) ⟨2 * i.val + 1, by have h := i.isLt; omega⟩

/-- The body of the energy loop of `SPL_Meter::process` for bin `i`:
`weighted_mag_sq = (real*real + imag*imag) * A_WEIGHTING_LUT_SQUARED[i] *
MIC_CORRECTION_LUT_SQUARED[i]`. -/
noncomputable def binTerm (F : Transform) (b : Buffer) (i : Fin 128) : ℝ :=
  (binReal F b i * binReal F b i + binImag F b i * binImag F b i)
    * (A_WEIGHTING_LUT_SQUARED i.val : ℝ) * (MIC_CORRECTION_LUT_SQUARED i.val : ℝ)

/-- Steps 4-6 of `SPL_Meter::process`: `total_energy`, accumulated by the
loop `for (i = 1; i < NUM_SAMPLES / 2; i++)` starting from `0.0f`. -/
noncomputable def totalEnergy (F : Transform) (b : Buffer) : ℝ :=
  ((List.finRange 128).drop 1).foldl (fun acc i => acc + binTerm F b i) 0

/-- `powf(10.0f, -38.0f / 20.0f)`: the microphone sensitivity in linear V/Pa. -/
noncomputable def sensitivity_V_Pa : ℝ := (10 : ℝ) ^ ((-38 : ℝ) / 20)

/-- Step 7 of `SPL_Meter::process` (positive-energy branch): `pressure_Pa`,
via `mean_sq_adc`, `rms_adc` and `rms_voltage`. -/
noncomputable def pressurePa (total_energy : ℝ) : ℝ :=
  ((Real.sqrt ((total_energy * 2) / ((NUM_SAMPLES : ℝ) * NUM_SAMPLES))
      / ADC_RESOLUTION) * ADC_REF_VOLTAGE) / sensitivity_V_Pa

/-- The argument `pressure_Pa / 20e-6` handed to `log10f` in Step 7. -/
noncomputable def logArgument (total_energy : ℝ) : ℝ :=
  pressurePa total_energy / 20e-6

/-- Step 7 of `SPL_Meter::process` in full: the instantaneous level
`m_latest_dba_spl` as a function of `total_energy` (zero guard included). -/
noncomputable def levelOfEnergy (total_energy : ℝ) : ℝ :=
  if total_energy ≤ 0 then 0
  else 20 * Real.logb 10 (logArgument total_energy) + CALIBRATION_OFFSET_DB

/-- The instantaneous level computed by one call of `SPL_Meter::process`. -/
noncomputable def latestLevel (F : Transform) (b : Buffer) : ℝ :=
  levelOfEnergy (totalEnergy F b)

/-- The persistent members of `SPL_Meter`: `m_latest_dba_spl` and
`m_smoothed_dba_spl`. -/
structure MeterState where
  latest_dba_spl : ℝ
  smoothed_dba_spl : ℝ

/-- The constructor `SPL_Meter::SPL_Meter()`: both levels start at zero. -/
def initialState : MeterState := ⟨0, 0⟩

/-- Step 8 of `SPL_Meter::process`: one EMA update,
`(SMOOTHING_FACTOR * latest) + ((1.0f - SMOOTHING_FACTOR) * smoothed)`. -/
noncomputable def emaStep (latest smoothed : ℝ) : ℝ :=
  SMOOTHING_FACTOR * latest + (1 - SMOOTHING_FACTOR) * smoothed

/-- `SPL_Meter::process` as a state transformer: one full pipeline pass
updating `m_latest_dba_spl` and `m_smoothed_dba_spl`. -/
noncomputable def process (F : Transform) (st : MeterState) (b : Buffer) : MeterState :=
  { latest_dba_spl := latestLevel F b
    smoothed_dba_spl := emaStep (latestLevel F b) st.smoothed_dba_spl }

/-- `SPL_Meter::getSmoothedDbaSpl`. -/
def getSmoothedDbaSpl (st : MeterState) : ℝ := st.smoothed_dba_spl

/-- A buffer in which every sample equals the constant `c`. -/
def constBuffer (c : ℕ) : Buffer := fun _ => c

/-- The identity packing transform, used as a concrete `Transform` instance
in witnesses and counterexamples. -/
def idTransform : Transform := fun v => v

/-! ### Basic facts about the coefficient tables -/

set_option maxRecDepth 8000 in
lemma hann_getD_le : ∀ i : Fin 256, hannInitializers.getD i.val 0 ≤ 100000 := by decide

set_option maxRecDepth 8000 in
lemma hann_getD_symm : ∀ k : Fin 114,
    hannInitializers.getD (113 + k.val) 0 = hannInitializers.getD (113 - k.val) 0 := by decide

set_option maxRecDepth 8000 in
lemma hann_getD_lt : ∀ i : Fin 256, i.val ≠ 113 →
    hannInitializers.getD i.val 0 < 100000 := by decide

set_option maxRecDepth 8000 in
lemma hann_length : hannInitializers.length = 226 := by decide

lemma hann_getD_tail {i : ℕ} (h : 226 ≤ i) : hannInitializers.getD i 0 = 0 :=
  List.getD_eq_default _ _ (hann_length ▸ h)

lemma HANN_WINDOW_LUT_eq {i n : ℕ} (h : hannInitializers.getD i 0 = n) :
    HANN_WINDOW_LUT i = (n : ℚ) / 100000 := by
  unfold HANN_WINDOW_LUT
  rw [h]

lemma HANN_WINDOW_LUT_real_eq {i n : ℕ} (h : hannInitializers.getD i 0 = n) :
    ((HANN_WINDOW_LUT i : ℚ) : ℝ) = (n : ℝ) / 100000 := by
  rw [HANN_WINDOW_LUT_eq h]
  push_cast
  ring

lemma A_WEIGHTING_eq {i n : ℕ} (h : aWeightingInitializers.getD i 0 = n) :
    A_WEIGHTING_LUT_SQUARED i = (n : ℚ) / 10000 := by
  unfold A_WEIGHTING_LUT_SQUARED
  rw [h]

lemma MIC_CORRECTION_eq {i n : ℕ} (h : micCorrectionInitializers.getD i 0 = n) :
    MIC_CORRECTION_LUT_SQUARED i = (n : ℚ) / 10000 := by
  unfold MIC_CORRECTION_LUT_SQUARED
  rw [h]

/-! ### Claim C1: the window coefficient table -/

/-- C1 (counterexample): the window table is not symmetric under
`i ↔ 255 - i` (entry 10 is `0.01513` while entry `245` is a
zero-initialized `0`), and its maximum value `1.0` is attained at neither
of the two central indices 127 and 128 of the 256-entry buffer. -/
theorem c1_window_counterexample :
    HANN_WINDOW_LUT 10 ≠ HANN_WINDOW_LUT (255 - 10) ∧
    HANN_WINDOW_LUT 127 ≠ 1 ∧ HANN_WINDOW_LUT 128 ≠ 1 := by
  refine ⟨?_, ?_, ?_⟩
  · rw [HANN_WINDOW_LUT_eq (show hannInitializers.getD 10 0 = 1513 from by decide),
      show (255 - 10 : ℕ) = 245 from by norm_num,
      HANN_WINDOW_LUT_eq (show hannInitializers.getD 245 0 = 0 from by decide)]
    norm_num
  · rw [HANN_WINDOW_LUT_eq (show hannInitializers.getD 127 0 = 87440 from by decide)]
    norm_num
  · rw [HANN_WINDOW_LUT_eq (show hannInitializers.getD 128 0 = 86410 from by decide)]
    norm_num

/-- C1 (amended): the window table has 256 coefficients, each in `[0, 1]`;
it is symmetric about index 113 (the entry at `113 + k` equals the entry at
`113 - k` for `k ≤ 113`), and its maximum value `1.0` is attained exactly at
index 113 — not at the buffer midpoint. -/
theorem c1_window_amended :
    (∀ i : Fin 256, 0 ≤ HANN_WINDOW_LUT i.val ∧ HANN_WINDOW_LUT i.val ≤ 1) ∧
    (∀ k : Fin 114, HANN_WINDOW_LUT (113 + k.val) = HANN_WINDOW_LUT (113 - k.val)) ∧
    HANN_WINDOW_LUT 113 = 1 ∧
    (∀ i : Fin 256, i.val ≠ 113 → HANN_WINDOW_LUT i.val < 1) := by
  refine ⟨fun i => ⟨?_, ?_⟩, fun k => ?_, ?_, fun i hi => ?_⟩
  · unfold HANN_WINDOW_LUT
    positivity
  · unfold HANN_WINDOW_LUT
    rw [div_le_one (by norm_num)]
    exact_mod_cast hann_getD_le i
  · unfold HANN_WINDOW_LUT
    rw [hann_getD_symm k]
  · rw [HANN_WINDOW_LUT_eq (show hannInitializers.getD 113 0 = 100000 from by decide)]
    norm_num
  · unfold HANN_WINDOW_LUT
    rw [div_lt_one (by norm_num)]
    exact_mod_cast hann_getD_lt i hi

/-- C1 (witness for the amended claim): index 0 is distinct from 113, so its
coefficient is strictly below the maximum. -/
theorem c1_window_witness : HANN_WINDOW_LUT 0 < 1 :=
  c1_window_amended.2.2.2 ⟨0, by norm_num⟩ (by norm_num)

/-! ### The accumulation loop as a big-operator sum -/

lemma foldl_add_eq (f : Fin 128 → ℝ) (l : List (Fin 128)) (a : ℝ) :
    l.foldl (fun acc i => acc + f i) a = a + (l.map f).sum := by
  induction l generalizing a with
  | nil => simp
  | cons x xs ih => simp [ih, add_assoc]

lemma totalEnergy_eq_sum (F : Transform) (b : Buffer) :
    totalEnergy F b = ∑ i ∈ Finset.univ \ {(0 : Fin 128)}, binTerm F b i := by
  have hdrop : (List.finRange 128).drop 1 = (List.finRange 127).map Fin.succ := by
    have h : List.finRange 128 = (0 : Fin 128) :: (List.finRange 127).map Fin.succ :=
      List.finRange_succ_eq_map 127
    rw [h]
    rfl
  unfold totalEnergy
  rw [foldl_add_eq, zero_add, hdrop, List.map_map, ← Fin.sum_univ_def,
    Finset.sdiff_singleton_eq_erase]
  have h := Finset.sum_erase_add Finset.univ (binTerm F b) (Finset.mem_univ (0 : Fin 128))
  rw [Fin.sum_univ_succ (binTerm F b)] at h
  simp only [Function.comp]
  linarith

/-! ### Claim C3: the weighted-energy accumulation formula -/

/-- C3: for every transform and buffer, the accumulated `total_energy` is the
sum, over frequency bins 1 through 127 (bin 0 excluded), of the bin power
`real² + imag²` multiplied by the product of the A-weighting and microphone
correction coefficients at that bin. -/
theorem c3_energy_formula (F : Transform) (b : Buffer) :
    totalEnergy F b = ∑ i ∈ Finset.univ \ {(0 : Fin 128)},
      (binReal F b i * binReal F b i + binImag F b i * binImag F b i)
        * ((A_WEIGHTING_LUT_SQUARED i.val : ℝ) * (MIC_CORRECTION_LUT_SQUARED i.val : ℝ)) := by
  rw [totalEnergy_eq_sum]
  refine Finset.sum_congr rfl fun i _ => ?_
  unfold binTerm
  ring

/-! ### Claim C9: the zero-initialized window tail kills samples 226..255 -/

/-- C9: for every buffer, the FFT input at each index `226 ≤ i ≤ 255` is
exactly 0 regardless of the sample values there, because the window table has
only 226 explicit initializers and its remaining entries are
zero-initialized. -/
theorem c9_window_tail (b : Buffer) (i : Fin 256) (h : 226 ≤ i.val) :
    fftInput b i = 0 := by
  unfold fftInput
  rw [HANN_WINDOW_LUT_real_eq (hann_getD_tail h)]
  norm_num

/-- C9 (witness): with all samples equal to 7, the FFT input at index 240
vanishes. -/
theorem c9_window_tail_witness : fftInput (constBuffer 7) ⟨240, by norm_num⟩ = 0 :=
  c9_window_tail (constBuffer 7) ⟨240, by norm_num⟩ (by norm_num)

/-! ### Claim C10: the A-weighting table zeroes the upper half-spectrum -/

set_option maxRecDepth 2000 in
lemma aw_getD_upper : ∀ i : Fin 128, 64 ≤ i.val →
    aWeightingInitializers.getD i.val 0 = 0 := by decide

/-- C10: the perceptual-weighting coefficient is 0 at every bin index 64
through 127, so the weighted contribution of those bins to the accumulated
total energy is exactly 0 for every transform and buffer. -/
theorem c10_upper_bins (i : Fin 128) (hi : 64 ≤ i.val) :
    A_WEIGHTING_LUT_SQUARED i.val = 0 ∧
    ∀ (F : Transform) (b : Buffer),
      ∑ j ∈ Finset.univ.filter (fun j : Fin 128 => 64 ≤ j.val), binTerm F b j = 0 := by
  constructor
  · rw [A_WEIGHTING_eq (aw_getD_upper i hi)]
    norm_num
  · intro F b
    refine Finset.sum_eq_zero fun j hj => ?_
    rw [Finset.mem_filter] at hj
    unfold binTerm
    rw [A_WEIGHTING_eq (aw_getD_upper j hj.2)]
    push_cast
    ring

/-- C10 (witness): instantiated at bin 100 with the identity transform on an
all-zero buffer. -/
theorem c10_upper_bins_witness :
    A_WEIGHTING_LUT_SQUARED (100 : ℕ) = 0 ∧
    ∑ j ∈ Finset.univ.filter (fun j : Fin 128 => 64 ≤ j.val),
      binTerm idTransform (constBuffer 0) j = 0 := by
  have h := c10_upper_bins ⟨100, by norm_num⟩ (by norm_num)
  exact ⟨h.1, h.2 idTransform (constBuffer 0)⟩

/-! ### Constant buffers through the pipeline -/

lemma sum_constBuffer (c : ℕ) : (∑ i, constBuffer c i) = 256 * c := by
  have h : (∑ _i : Fin 256, c) = 256 * c := by
    rw [Finset.sum_const, Finset.card_univ, Fintype.card_fin, smul_eq_mul]
  exact h

lemma rawSum_constBuffer (c : ℕ) : rawSum (constBuffer c) = 256 * c % 2 ^ 32 := by
  unfold rawSum
  rw [sum_constBuffer]

lemma centered_constBuffer_small {c : ℕ} (hc : 256 * c < 2 ^ 32) (i : Fin 256) :
    centered (constBuffer c) i = 0 := by
  unfold centered dynamicDcOffset NUM_SAMPLES
  rw [rawSum_constBuffer, Nat.mod_eq_of_lt hc]
  unfold constBuffer
  push_cast
  ring

lemma fftInput_constBuffer_small {c : ℕ} (hc : 256 * c < 2 ^ 32) :
    fftInput (constBuffer c) = fun _ => 0 := by
  funext i
  unfold fftInput
  rw [centered_constBuffer_small hc]
  ring

lemma totalEnergy_of_zero_input {F : Transform} {b : Buffer}
    (hin : fftInput b = fun _ => 0) (hF : F (fun _ => 0) = fun _ => 0) :
    totalEnergy F b = 0 := by
  rw [totalEnergy_eq_sum]
  refine Finset.sum_eq_zero fun i _ => ?_
  unfold binTerm binReal binImag
  rw [hin, hF]
  simp

lemma latestLevel_of_nonpos {F : Transform} {b : Buffer}
    (h : totalEnergy F b ≤ 0) : latestLevel F b = 0 := by
  unfold latestLevel levelOfEnergy
  rw [if_pos h]

/-! ### Claim C2: constant buffers are silence -/

/-- C2 (amended): for every transform that maps the zero signal to the zero
output and every constant `c` whose 256-fold sum does not overflow the
`uint32_t` accumulator (`256 * c < 2 ^ 32`), processing the constant-`c`
buffer yields an all-zero centered signal, total weighted energy 0, and an
instantaneous level of exactly 0. -/
theorem c2_constant_buffer (F : Transform) (hF : F (fun _ => 0) = fun _ => 0)
    (c : ℕ) (hc : 256 * c < 2 ^ 32) :
    (∀ i, centered (constBuffer c) i = 0) ∧
    totalEnergy F (constBuffer c) = 0 ∧
    latestLevel F (constBuffer c) = 0 := by
  refine ⟨centered_constBuffer_small hc, ?_, ?_⟩
  · exact totalEnergy_of_zero_input (fftInput_constBuffer_small hc) hF
  · exact latestLevel_of_nonpos
      (le_of_eq (totalEnergy_of_zero_input (fftInput_constBuffer_small hc) hF))

/-- C2 (counterexample): for the constant `c = 2 ^ 24` the `uint32_t` sum of
the buffer wraps to 0, the computed DC offset is 0, and the centered signal
is the nonzero constant `2 ^ 24` — the claim's "DC-removed signal is all
zeros" fails for that buffer. -/
theorem c2_constant_buffer_counterexample :
    centered (constBuffer (2 ^ 24)) 0 ≠ 0 := by
  unfold centered dynamicDcOffset NUM_SAMPLES
  rw [rawSum_constBuffer]
  unfold constBuffer
  norm_num

/-- C2 (witness for the amended claim): instantiated with the identity
transform and the constant buffer of value 1000. -/
theorem c2_constant_buffer_witness :
    centered (constBuffer 1000) 0 = 0 ∧
    totalEnergy idTransform (constBuffer 1000) = 0 ∧
    latestLevel idTransform (constBuffer 1000) = 0 :=
  ⟨(c2_constant_buffer idTransform rfl 1000 (by norm_num)).1 0,
   (c2_constant_buffer idTransform rfl 1000 (by norm_num)).2⟩

/-! ### The decibel conversion chain -/

lemma sensitivity_pos : 0 < sensitivity_V_Pa :=
  Real.rpow_pos_of_pos (by norm_num) _

lemma pressurePa_pos {e : ℝ} (he : 0 < e) : 0 < pressurePa e := by
  unfold pressurePa ADC_REF_VOLTAGE NUM_SAMPLES ADC_RESOLUTION
  have hs : 0 < Real.sqrt (e * 2 / ((256 : ℕ) * (256 : ℕ))) := by
    apply Real.sqrt_pos.mpr
    positivity
  have := sensitivity_pos
  positivity

lemma logArgument_pos {e : ℝ} (he : 0 < e) : 0 < logArgument e := by
  unfold logArgument
  have := pressurePa_pos he
  positivity

/-! ### Claim C4: the zero-energy guard -/

/-- C4: whenever the accumulated total energy is nonpositive, `process` sets
the instantaneous level to exactly 0 and the logarithmic branch is not taken;
in the branch that is taken otherwise, the argument handed to `log10f` is
strictly positive. -/
theorem c4_energy_guard (F : Transform) (st : MeterState) (b : Buffer) :
    (totalEnergy F b ≤ 0 → (process F st b).latest_dba_spl = 0) ∧
    (0 < totalEnergy F b → 0 < logArgument (totalEnergy F b)) := by
  constructor
  · intro h
    exact latestLevel_of_nonpos h
  · intro h
    exact logArgument_pos h

/-- C4 (witness): the all-zero buffer has zero energy, so its level is 0. -/
theorem c4_energy_guard_witness :
    (process idTransform initialState (constBuffer 0)).latest_dba_spl = 0 :=
  (c4_energy_guard idTransform initialState (constBuffer 0)).1
    (le_of_eq (totalEnergy_of_zero_input (fftInput_constBuffer_small (by norm_num)) rfl))

/-! ### Claim C5: the smoothing update -/

/-- C5: every call of `process` sets `m_smoothed_dba_spl` to
`α * latest + (1 - α) * previous smoothed` with the fixed `α = 0.1`, where
`latest` is the instantaneous level computed in the same call; and the
smoothed level is the only state `process` reads — two states agreeing on
`m_smoothed_dba_spl` yield identical results. -/
theorem c5_smoothing_update (F : Transform) (st st' : MeterState) (b : Buffer) :
    (process F st b).smoothed_dba_spl
        = SMOOTHING_FACTOR * latestLevel F b
          + (1 - SMOOTHING_FACTOR) * st.smoothed_dba_spl ∧
    SMOOTHING_FACTOR = 1 / 10 ∧
    (process F st b).latest_dba_spl = latestLevel F b ∧
    (st.smoothed_dba_spl = st'.smoothed_dba_spl → process F st b = process F st' b) := by
  refine ⟨rfl, by norm_num [SMOOTHING_FACTOR], rfl, fun h => ?_⟩
  unfold process emaStep
  rw [h]

/-- C5 (witness): two states with equal smoothed level but different latest
level produce the same `process` result. -/
theorem c5_smoothing_update_witness :
    process idTransform ⟨5, 2⟩ (constBuffer 0) = process idTransform ⟨7, 2⟩ (constBuffer 0) :=
  (c5_smoothing_update idTransform ⟨5, 2⟩ ⟨7, 2⟩ (constBuffer 0)).2.2.2 rfl

/-! ### Claim C6: convergence of the exponential moving average -/

/-- C6: iterating the smoothing step with a fixed level `L` drives the
smoothed value monotonically toward `L`, the error shrinking by the factor
`1 - α = 0.9` each step; concretely, starting from 0 with `L = 60`, one step
gives 6.0 and a second identical step gives 11.4. -/
theorem c6_ema_convergence (L s : ℝ) (_hL : L ≠ 0) :
    |L - emaStep L s| = (1 - SMOOTHING_FACTOR) * |L - s| ∧
    (s < L → s < emaStep L s ∧ emaStep L s < L) ∧
    (L < s → L < emaStep L s ∧ emaStep L s < s) ∧
    emaStep 60 0 = 6 ∧ emaStep 60 (emaStep 60 0) = 11.4 := by
  unfold emaStep SMOOTHING_FACTOR
  norm_num
  refine ⟨?_, fun h => ⟨by nlinarith, by nlinarith⟩,
    fun h => ⟨by nlinarith, by nlinarith⟩⟩
  rw [show L - (1 / 10 * L + 9 / 10 * s) = 9 / 10 * (L - s) by ring, abs_mul,
    abs_of_pos (show (0:ℝ) < 9 / 10 by norm_num)]

/-- C6 (witness): the concrete two-step run of the claim, from 0 with
`L = 60`. -/
theorem c6_ema_convergence_witness :
    emaStep 60 0 = 6 ∧ emaStep 60 (emaStep 60 0) = 11.4 :=
  (c6_ema_convergence 60 0 (by norm_num)).2.2.2

/-! ### Wrapping constant buffers and energy bounds

When `256 * c` is a multiple of `2 ^ 32` the `uint32_t` sum of the
constant-`c` buffer wraps to 0, the computed DC offset is 0, and the
"centered" signal is the nonzero constant `c` itself.  The lemmas below
compute the resulting energy under the identity transform far enough to
bound the produced decibel level. -/

lemma centered_constBuffer_wrap {c : ℕ} (hc : 256 * c % 2 ^ 32 = 0) (i : Fin 256) :
    centered (constBuffer c) i = c := by
  unfold centered dynamicDcOffset NUM_SAMPLES
  rw [rawSum_constBuffer, hc]
  unfold constBuffer
  push_cast
  ring

lemma fftInput_constBuffer_wrap {c : ℕ} (hc : 256 * c % 2 ^ 32 = 0) (i : Fin 256) :
    fftInput (constBuffer c) i = c * ((HANN_WINDOW_LUT i.val : ℚ) : ℝ) := by
  unfold fftInput
  rw [centered_constBuffer_wrap hc]

lemma fftInput_constBuffer_wrap_fun (c : ℕ) (hc : 256 * c % 2 ^ 32 = 0) :
    fftInput (constBuffer c) = fun i => (c : ℝ) * ((HANN_WINDOW_LUT i.val : ℚ) : ℝ) := by
  funext i
  exact fftInput_constBuffer_wrap hc i

lemma binTerm_pow24_bin1 :
    (10000 : ℝ) ≤ binTerm idTransform (constBuffer (2 ^ 24)) ⟨1, by norm_num⟩ := by
  have h2 : ((HANN_WINDOW_LUT 2 : ℚ) : ℝ) = 61 / 100000 :=
    HANN_WINDOW_LUT_real_eq (by decide)
  have h3 : ((HANN_WINDOW_LUT 3 : ℚ) : ℝ) = 137 / 100000 :=
    HANN_WINDOW_LUT_real_eq (by decide)
  have hA : ((A_WEIGHTING_LUT_SQUARED 1 : ℚ) : ℝ) = 2120 / 10000 := by
    rw [A_WEIGHTING_eq (show aWeightingInitializers.getD 1 0 = 2120 from by decide)]
    push_cast
    ring
  have hM : ((MIC_CORRECTION_LUT_SQUARED 1 : ℚ) : ℝ) = 11220 / 10000 := by
    rw [MIC_CORRECTION_eq (show micCorrectionInitializers.getD 1 0 = 11220 from by decide)]
    push_cast
    ring
  unfold binTerm binReal binImag idTransform
  rw [fftInput_constBuffer_wrap (by norm_num), fftInput_constBuffer_wrap (by norm_num)]
  norm_num
  rw [h2, h3, hA, hM]
  norm_num

lemma A_WEIGHTING_nonneg (i : ℕ) : 0 ≤ A_WEIGHTING_LUT_SQUARED i := by
  unfold A_WEIGHTING_LUT_SQUARED
  exact div_nonneg (Nat.cast_nonneg _) (by norm_num)

lemma MIC_CORRECTION_nonneg (i : ℕ) : 0 ≤ MIC_CORRECTION_LUT_SQUARED i := by
  unfold MIC_CORRECTION_LUT_SQUARED
  exact div_nonneg (Nat.cast_nonneg _) (by norm_num)

lemma binTerm_nonneg (F : Transform) (b : Buffer) (i : Fin 128) : 0 ≤ binTerm F b i := by
  unfold binTerm
  have h1 : (0:ℝ) ≤ ((A_WEIGHTING_LUT_SQUARED i.val : ℚ) : ℝ) := by
    exact_mod_cast A_WEIGHTING_nonneg i.val
  have h2 : (0:ℝ) ≤ ((MIC_CORRECTION_LUT_SQUARED i.val : ℚ) : ℝ) := by
    exact_mod_cast MIC_CORRECTION_nonneg i.val
  have h3 : 0 ≤ binReal F b i * binReal F b i + binImag F b i * binImag F b i :=
    add_nonneg (mul_self_nonneg _) (mul_self_nonneg _)
  exact mul_nonneg (mul_nonneg h3 h1) h2

lemma energy_pow24_lb :
    (10000 : ℝ) ≤ totalEnergy idTransform (constBuffer (2 ^ 24)) := by
  rw [totalEnergy_eq_sum]
  calc (10000 : ℝ) ≤ binTerm idTransform (constBuffer (2 ^ 24)) ⟨1, by norm_num⟩ :=
        binTerm_pow24_bin1
    _ ≤ ∑ i ∈ Finset.univ \ {(0 : Fin 128)}, binTerm idTransform (constBuffer (2 ^ 24)) i :=
        Finset.single_le_sum (fun i _ => binTerm_nonneg idTransform (constBuffer (2 ^ 24)) i)
          (by simp)

lemma rpow_ten_three_halves_lt : (10 : ℝ) ^ ((3 : ℝ) / 2) < 32 := by
  have h0 : (0:ℝ) ≤ 10 := by norm_num
  have hsq : ((10 : ℝ) ^ ((3 : ℝ) / 2)) ^ (2 : ℕ) = 1000 := by
    rw [← Real.rpow_natCast ((10 : ℝ) ^ ((3 : ℝ) / 2)) 2, ← Real.rpow_mul h0]
    rw [show (3 : ℝ) / 2 * (2 : ℕ) = ((3 : ℕ) : ℝ) by push_cast; ring, Real.rpow_natCast]
    norm_num
  have hpos : (0:ℝ) < (10 : ℝ) ^ ((3 : ℝ) / 2) := Real.rpow_pos_of_pos (by norm_num) _
  nlinarith

lemma sensitivity_le : sensitivity_V_Pa ≤ 1 / 10 := by
  unfold sensitivity_V_Pa
  calc (10 : ℝ) ^ ((-38 : ℝ) / 20) ≤ (10 : ℝ) ^ (-1 : ℝ) := by
        rw [Real.rpow_le_rpow_left_iff (by norm_num : (1:ℝ) < 10)]
        norm_num
    _ = 1 / 10 := by rw [Real.rpow_neg_one]; norm_num

lemma logArgument_lb {e : ℝ} (he : 10000 ≤ e) : (32 : ℝ) ≤ logArgument e := by
  have hS : (0.55 : ℝ) ≤ Real.sqrt (e * 2 / ((NUM_SAMPLES : ℝ) * NUM_SAMPLES)) := by
    rw [Real.le_sqrt (by norm_num) (by unfold NUM_SAMPLES; positivity)]
    unfold NUM_SAMPLES
    push_cast
    nlinarith
  have hsp := sensitivity_pos
  have hsl := sensitivity_le
  unfold logArgument pressurePa ADC_RESOLUTION ADC_REF_VOLTAGE
  rw [div_div, le_div_iff₀ (by positivity)]
  push_cast
  nlinarith

lemma levelOfEnergy_pos {e : ℝ} (he : 10000 ≤ e) : 0 < levelOfEnergy e := by
  have he0 : (0:ℝ) < e := by linarith
  have harg_pos : 0 < logArgument e := logArgument_pos he0
  have harg : (32:ℝ) ≤ logArgument e := logArgument_lb he
  have hlog : (3:ℝ)/2 < Real.logb 10 (logArgument e) := by
    rw [Real.lt_logb_iff_rpow_lt (by norm_num : (1:ℝ) < 10) harg_pos]
    calc (10:ℝ) ^ ((3:ℝ)/2) < 32 := rpow_ten_three_halves_lt
      _ ≤ logArgument e := harg
  unfold levelOfEnergy
  rw [if_neg (by linarith)]
  unfold CALIBRATION_OFFSET_DB
  linarith

lemma logArgument_lt {e1 e2 : ℝ} (h0 : 0 ≤ e1) (h12 : e1 < e2) :
    logArgument e1 < logArgument e2 := by
  have hsp := sensitivity_pos
  have hs : Real.sqrt (e1 * 2 / ((NUM_SAMPLES : ℝ) * NUM_SAMPLES)) <
      Real.sqrt (e2 * 2 / ((NUM_SAMPLES : ℝ) * NUM_SAMPLES)) := by
    apply Real.sqrt_lt_sqrt (by unfold NUM_SAMPLES; positivity)
    unfold NUM_SAMPLES
    push_cast
    nlinarith
  unfold logArgument pressurePa
  rw [div_lt_div_iff_of_pos_right (by norm_num : (0:ℝ) < 20e-6),
      div_lt_div_iff_of_pos_right hsp,
      mul_lt_mul_right (by unfold ADC_REF_VOLTAGE; norm_num : (0:ℝ) < ADC_REF_VOLTAGE),
      div_lt_div_iff_of_pos_right (by unfold ADC_RESOLUTION; positivity :
        (0:ℝ) < (ADC_RESOLUTION : ℝ))]
  exact hs

lemma levelOfEnergy_lt {e1 e2 : ℝ} (h1 : 0 < e1) (h12 : e1 < e2) :
    levelOfEnergy e1 < levelOfEnergy e2 := by
  unfold levelOfEnergy
  rw [if_neg (not_le.mpr h1), if_neg (not_le.mpr (h1.trans h12))]
  have harg1 : 0 < logArgument e1 := logArgument_pos h1
  have hlt : logArgument e1 < logArgument e2 := logArgument_lt h1.le h12
  have h := Real.logb_lt_logb (by norm_num : (1:ℝ) < 10) harg1 hlt
  linarith

lemma energy_pow25_eq :
    totalEnergy idTransform (constBuffer (2 ^ 25))
      = 4 * totalEnergy idTransform (constBuffer (2 ^ 24)) := by
  rw [totalEnergy_eq_sum, totalEnergy_eq_sum, Finset.mul_sum]
  refine Finset.sum_congr rfl fun i _ => ?_
  unfold binTerm binReal binImag idTransform
  rw [fftInput_constBuffer_wrap_fun (2 ^ 25) (by norm_num),
      fftInput_constBuffer_wrap_fun (2 ^ 24) (by norm_num)]
  push_cast
  ring

lemma fftInput_congr {b1 b2 : Buffer} (h : ∀ i, centered b1 i = centered b2 i) :
    fftInput b1 = fftInput b2 := by
  funext i
  unfold fftInput
  rw [h]

lemma totalEnergy_congr (F : Transform) {b1 b2 : Buffer}
    (h : fftInput b1 = fftInput b2) : totalEnergy F b1 = totalEnergy F b2 := by
  unfold totalEnergy binTerm binReal binImag
  rw [h]

lemma latestLevel_congr (F : Transform) {b1 b2 : Buffer}
    (h : fftInput b1 = fftInput b2) : latestLevel F b1 = latestLevel F b2 := by
  unfold latestLevel
  rw [totalEnergy_congr F h]

/-! ### Claim C7: DC-offset invariance -/

/-- C7 (amended): adding a constant `c` to every sample of a buffer leaves
the instantaneous level unchanged, provided the `uint32_t` sum of the shifted
buffer does not wrap (`(∑ b i) + 256 * c < 2 ^ 32`): the per-buffer DC
removal then cancels the offset exactly, for every transform. -/
theorem c7_dc_offset_invariance (F : Transform) (b : Buffer) (c : ℕ)
    (h : (∑ i, b i) + 256 * c < 2 ^ 32) :
    latestLevel F (fun i => b i + c) = latestLevel F b := by
  have hb : (∑ i, b i) < 2 ^ 32 := by omega
  have h2 : (∑ _i : Fin 256, c) = 256 * c := sum_constBuffer c
  have hsum : (∑ i, (b i + c)) = (∑ i, b i) + 256 * c := by
    rw [Finset.sum_add_distrib, h2]
  have hraw : rawSum (fun i => b i + c) = ((∑ i, b i) + 256 * c) % 2 ^ 32 := by
    unfold rawSum
    rw [hsum]
  have hraw2 : rawSum b = (∑ i, b i) % 2 ^ 32 := rfl
  apply latestLevel_congr F
  apply fftInput_congr
  intro i
  unfold centered dynamicDcOffset
  rw [hraw, hraw2, Nat.mod_eq_of_lt h, Nat.mod_eq_of_lt hb]
  unfold NUM_SAMPLES
  push_cast
  ring

/-- C7 (witness for the amended claim): shifting the all-ones buffer by 2. -/
theorem c7_dc_offset_invariance_witness :
    latestLevel idTransform (fun i => constBuffer 1 i + 2)
      = latestLevel idTransform (constBuffer 1) :=
  c7_dc_offset_invariance idTransform (constBuffer 1) 2
    (by rw [sum_constBuffer]; norm_num)

/-- C7 (counterexample): with all samples equal to `2 ^ 24 - 1` and `c = 1`,
the original buffer is exact silence (level 0), but the shifted buffer's
`uint32_t` sum wraps to 0, its centered signal is the constant `2 ^ 24`, and
(under the identity transform) the accumulated energy is large enough that
the produced level is strictly positive — the levels differ. -/
theorem c7_dc_offset_invariance_counterexample :
    ¬ (∀ (F : Transform) (b : Buffer) (c : ℕ),
        latestLevel F (fun i => b i + c) = latestLevel F b) := by
  intro hclaim
  have h := hclaim idTransform (constBuffer (2 ^ 24 - 1)) 1
  have hb' : (fun i => constBuffer (2 ^ 24 - 1) i + 1) = constBuffer (2 ^ 24) := by
    funext i
    unfold constBuffer
    norm_num
  rw [hb'] at h
  have h0 : latestLevel idTransform (constBuffer (2 ^ 24 - 1)) = 0 :=
    latestLevel_of_nonpos (le_of_eq
      (totalEnergy_of_zero_input (fftInput_constBuffer_small (by norm_num)) rfl))
  have hpos : 0 < latestLevel idTransform (constBuffer (2 ^ 24)) :=
    levelOfEnergy_pos energy_pow24_lb
  rw [h0] at h
  exact absurd h (ne_of_gt hpos)

/-! ### Claim C8: strict monotonicity of the energy-to-decibel conversion -/

/-- C8: for two buffers whose accumulated weighted energies satisfy
`0 < energy₁ < energy₂`, the instantaneous dB levels produced by the
conversion chain satisfy `level₁ < level₂`. -/
theorem c8_monotone_conversion (F : Transform) (b1 b2 : Buffer)
    (h1 : 0 < totalEnergy F b1) (h12 : totalEnergy F b1 < totalEnergy F b2) :
    latestLevel F b1 < latestLevel F b2 :=
  levelOfEnergy_lt h1 h12

/-- C8 (witness): under the identity transform, the wrapped constant buffers
of values `2 ^ 24` and `2 ^ 25` have positive energies in ratio 1 : 4, and
their levels are strictly ordered. -/
theorem c8_monotone_conversion_witness :
    latestLevel idTransform (constBuffer (2 ^ 24))
      < latestLevel idTransform (constBuffer (2 ^ 25)) := by
  have hpos : (0:ℝ) < totalEnergy idTransform (constBuffer (2 ^ 24)) :=
    lt_of_lt_of_le (by norm_num) energy_pow24_lb
  exact c8_monotone_conversion idTransform (constBuffer (2 ^ 24)) (constBuffer (2 ^ 25)) hpos
    (by rw [energy_pow25_eq]; linarith)

end SPLMeter
